import Mathlib

/-!
Shallow embedding of `src/gallium/drivers/zink/zink_extensions.py`.

Python conventions are made explicit:
  * a Python method that can raise is embedded as an `Except String`
    (the string names the Python exception) or, for a single possible
    exception, as an `Option` where `none` models the raise;
  * `str.split('_')` is `pySplitUnderscore` (keeps empty pieces, as Python
    does for an explicit separator);
  * string truthiness is non-emptiness;
  * all strings are treated as ASCII (the registry and extension names
    the program consumes are ASCII), so `str.upper`/`str.title` are
    modelled character by character with the ASCII case maps.
-/

deriving instance DecidableEq for Except

/-- Truthiness of an optional Python string: `None` and `""` are falsy. -/
def pyTruthyOpt : Option String → Bool
  | none => false
  | some s => s != ""

/-- One step of CPython's ASCII `str.title`: a cased (here: alphabetic)
character is lowercased when the previous character was cased and
titlecased otherwise; other characters pass through and reset the state. -/
def pyTitleList : List Char → Bool → List Char
  | [], _ => []
  | c :: cs, prevCased =>
    (if prevCased then c.toLower else c.toUpper) :: pyTitleList cs c.isAlpha

/-- Python `str.title()` (ASCII model). -/
def pyTitle (s : String) : String :=
  String.mk (pyTitleList s.data false)

/-- Splitting a character list at every occurrence of a separator character,
keeping empty pieces, exactly as Python `str.split` with an explicit
separator does (`"a__b".split('_') == ['a', '', 'b']`, `"".split('_') == ['']`). -/
def splitCharList (sep : Char) : List Char → List (List Char)
  | [] => [[]]
  | c :: rest =>
    match splitCharList sep rest with
    | [] => [[c]]
    | h :: t => if c = sep then [] :: h :: t else (c :: h) :: t

/-- Python `s.split('_')`. -/
def pySplitUnderscore (s : String) : List String :=
  (splitCharList '_' s.data).map String.mk

/-- Python `s.upper()` (ASCII model, character by character). -/
def pyUpper (s : String) : String :=
  String.mk (s.data.map Char.toUpper)

/-- Python `s.startswith(p)`. -/
def strStartsWith (s p : String) : Bool :=
  p.data.isPrefixOf s.data

/-- Python `s.endswith(p)`. -/
def strEndsWith (s p : String) : Bool :=
  p.data.isSuffixOf s.data

/-- Value of a non-empty, all-digit character list. -/
def digitsVal? (l : List Char) : Option Nat :=
  if l = [] then none
  else if l.all Char.isDigit then
    some (l.foldl (fun acc c => acc * 10 + (c.toNat - 48)) 0)
  else none

/-- Python `int(s)`: an optional sign followed by digits; `none` models the
`ValueError` raise. (The model covers tokens without surrounding whitespace
or underscore digit grouping, which the program never produces.) -/
def pyInt? (s : String) : Option Int :=
  match s.data with
  | '-' :: rest => (digitsVal? rest).map (fun n => -(n : Int))
  | '+' :: rest => (digitsVal? rest).map (fun n => (n : Int))
  | l => (digitsVal? l).map (fun n => (n : Int))

/-- `Option.map` preserves definedness. -/
theorem isSome_optMap {α β : Type} (f : α → β) (o : Option α) :
    (Option.map f o).isSome = o.isSome := by
  cases o <;> rfl

/-- Did the embedded Python computation raise? -/
def Except.raised {ε α : Type} : Except ε α → Bool
  | Except.error _ => true
  | Except.ok _ => false

/-- `class Version`: `device_version = (major, minor, patch)` and
`struct_version = (major, minor)`. -/
structure Version where
  device_version : Nat × Nat × Nat
  struct_version : Nat × Nat
deriving DecidableEq, Repr

/-- `Version.__init__(self, version, struct=())`: the empty-tuple default is
falsy, so `struct_version` falls back to the first two components of
`version`; a supplied pair (`some`) is truthy and is stored as given. -/
def Version.init (version : Nat × Nat × Nat) (struct : Option (Nat × Nat)) : Version :=
  { device_version := version
  , struct_version :=
      match struct with
      | none => (version.1, version.2.1)
      | some s => s }

/-- `Version.version(self)`, e.g. `"VK_MAKE_VERSION(1,2,0)"`. -/
def Version.version (v : Version) : String :=
  "VK_MAKE_VERSION(" ++ toString v.device_version.1
    ++ "," ++ toString v.device_version.2.1
    ++ "," ++ toString v.device_version.2.2 ++ ")"

/-- `Version.struct(self)`, e.g. `"10"`. -/
def Version.struct (v : Version) : String :=
  toString v.struct_version.1 ++ toString v.struct_version.2

/-- `Version.stype(self, struct)`. -/
def Version.stype (v : Version) (struct : String) : String :=
  "VK_STRUCTURE_TYPE_PHYSICAL_DEVICE_VULKAN_"
    ++ toString v.struct_version.1 ++ "_" ++ toString v.struct_version.2
    ++ "_" ++ struct

/-- `class Extension`: every class-level default is reassigned per instance
in `__init__`, so the fields are per-instance state. -/
structure Extension where
  name : String
  «alias» : String
  is_required : Bool
  is_nonstandard : Bool
  has_properties : Bool
  has_features : Bool
  enable_conds : Option (List String)
  guard : Bool
  core_since : Option Version
  instance_funcs : Option (List String)
deriving DecidableEq, Repr

/-- `Layer = Extension` (type alias in the source). -/
abbrev Layer := Extension

/-- `Extension.__init__`: stores the arguments, then raises
`RuntimeError("alias must be available when properties and/or features are used")`
when `alias == ""` and `properties == True or features == True`. -/
def Extension.init (name «alias» : String) (required nonstandard properties features : Bool)
    (conditions : Option (List String)) (guard : Bool)
    (core_since : Option Version) (functions : Option (List String)) :
    Except String Extension :=
  if «alias» = "" ∧ (properties = true ∨ features = true) then
    Except.error "RuntimeError: alias must be available when properties and/or features are used"
  else
    Except.ok { name := name, «alias» := «alias», is_required := required,
                is_nonstandard := nonstandard, has_properties := properties,
                has_features := features, enable_conds := conditions,
                guard := guard, core_since := core_since,
                instance_funcs := functions }

/-- `Extension.pure_name(self)`: `'_'.join(self.name.split('_')[2:])`. -/
def Extension.pure_name (e : Extension) : String :=
  "_".intercalate ((pySplitUnderscore e.name).drop 2)

/-- `Extension.name_with_vendor(self)`: `self.name[3:]` (slicing never raises). -/
def Extension.name_with_vendor (e : Extension) : String :=
  e.name.drop 3

/-- `Extension.name_in_camel_case(self)`:
`"".join([x.title() for x in self.name.split('_')[2:]])`. -/
def Extension.name_in_camel_case (e : Extension) : String :=
  String.join (((pySplitUnderscore e.name).drop 2).map pyTitle)

/-- `Extension.extension_name(self)`: `self.name.upper() + "_EXTENSION_NAME"`. -/
def Extension.extension_name (e : Extension) : String :=
  pyUpper e.name ++ "_EXTENSION_NAME"

/-- `Extension.extension_name_literal(self)`: `'"' + self.name + '"'`. -/
def Extension.extension_name_literal (e : Extension) : String :=
  "\"" ++ e.name ++ "\""

/-- `Extension.field(self, suffix)`: `self.alias + '_' + suffix`. -/
def Extension.field (e : Extension) (suffix : String) : String :=
  e.«alias» ++ "_" ++ suffix

/-- `Extension.vendor(self)`: `self.name.split('_')[1]`; `none` models the
`IndexError` raised when the name contains no underscore. -/
def Extension.vendor (e : Extension) : Option String :=
  (pySplitUnderscore e.name)[1]?

/-- `Extension.physical_device_struct(self, struct)`: the `struct` argument is
blanked when the camel-case name already ends with it, then the pieces are
concatenated.  Calls `vendor`, whose `IndexError` propagates (`none`). -/
def Extension.physical_device_struct (e : Extension) (struct : String) : Option String :=
  (e.vendor).map (fun v =>
    let camel := e.name_in_camel_case
    let struct2 := if strEndsWith camel struct then "" else struct
    "VkPhysicalDevice" ++ camel ++ struct2 ++ v)

/-- `Extension.stype(self, struct)`.  Calls `vendor`, whose `IndexError`
propagates (`none`). -/
def Extension.stype (e : Extension) (struct : String) : Option String :=
  (e.vendor).map (fun v =>
    "VK_STRUCTURE_TYPE_PHYSICAL_DEVICE_" ++ pyUpper e.pure_name
      ++ "_" ++ struct ++ "_" ++ v)

/-- `class ExtensionRegistryEntry`: the class-level defaults (`""`, `None`)
are immutable, and every field ever read is either one of those defaults or
an instance attribute assigned during registry construction, so the record
below models an entry faithfully. -/
structure ExtensionRegistryEntry where
  ext_type : String
  promoted_in : Option (Int × Int)
  commands : List String
  constants : List (Option String)
  features_struct : Option String
  properties_struct : Option String
deriving DecidableEq, Repr

/-- `<require><command name=.../></require>` element: `cmd.get("name")`. -/
structure CommandElem where
  name : Option String
deriving DecidableEq, Repr

/-- `<require><enum .../></require>` element: `enum.get("name")` and
`enum.get("extends")` (the attribute is called "extends" in the document;
`extends` is a Lean keyword, hence the field name). -/
structure EnumElem where
  name : Option String
  extendsAttr : Option String
deriving DecidableEq, Repr

/-- `<require><type name=.../></require>` element: `ty.get("name")`. -/
structure TypeElem where
  name : Option String
deriving DecidableEq, Repr

/-- One `extensions/extension` element.  `ext.attrib["name"]` and
`ext.attrib["type"]` are subscript accesses, so the attributes are required
(the program only consumes documents carrying them); `supported` and
`promotedto` are read with `.get` and so optional.  The three lists hold the
`findall` results in document order. -/
structure ExtensionElem where
  name : String
  ext_type : String
  supported : Option String
  promotedto : Option String
  commands : List CommandElem
  enums : List EnumElem
  types : List TypeElem
deriving DecidableEq, Repr

/-- The parsed document: the `extensions/extension` elements in order. -/
structure VkXml where
  extensions : List ExtensionElem
deriving DecidableEq, Repr

/-- `ExtensionRegistry.registry` is a CLASS-level `dict()` that `__init__`
mutates through `self.registry[name] = entry` without ever rebinding it, so
every `ExtensionRegistry` instance reads and writes the same dictionary.
The embedding threads that shared dictionary explicitly as an insertion-
ordered association list. -/
abbrev RegState := List (String × ExtensionRegistryEntry)

/-- Python `d[k] = v`: overwrite in place when the key is present, append
otherwise (insertion order preserved). -/
def dictInsert (d : RegState) (k : String) (v : ExtensionRegistryEntry) : RegState :=
  if d.any (fun p => p.1 == k) then
    d.map (fun p => if p.1 == k then (k, v) else p)
  else
    d ++ [(k, v)]

/-- Python `d[k]` / `k in d` support: first (unique) binding of the key. -/
def dictLookup (d : RegState) (k : String) : Option ExtensionRegistryEntry :=
  (d.find? (fun p => p.1 == k)).map Prod.snd

/-- `ExtensionRegistry.parse_promotedto(self, promotedto)`:
`if promotedto and promotedto.startswith("VK_VERSION_")` then
`(major, minor) = promotedto.split('_')[-2:]` and `(int(major), int(minor))`
is returned; `int` raises `ValueError` on a non-numeric token. -/
def parse_promotedto (promotedto : Option String) : Except String (Option (Int × Int)) :=
  match promotedto with
  | none => Except.ok none
  | some s =>
    if s != "" && strStartsWith s "VK_VERSION_" then
      let parts := pySplitUnderscore s
      match parts.drop (parts.length - 2) with
      | [major, minor] =>
        match pyInt? major, pyInt? minor with
        | some x, some y => Except.ok (some (x, y))
        | _, _ => Except.error "ValueError: invalid literal for int() with base 10"
      | _ => Except.error "ValueError: unpacking"
    else
      Except.ok none

/-- `.*needle` matching over a character list: the needle must occur after a
gap that `.` can cross, and `.` matches any character except a newline. -/
def matchDotStarSeq (needle : List Char) : List Char → Bool
  | [] => needle.isPrefixOf ([] : List Char)
  | c :: rest =>
    needle.isPrefixOf (c :: rest) || (c != '\n' && matchDotStarSeq needle rest)

/-- `ExtensionRegistry.is_features_struct(self, struct)`:
`re.match(r"VkPhysicalDevice.*Features.*", struct) is not None`.  `re.match`
anchors at the start only, and the trailing `.*` matches the empty string,
so the pattern matches iff the string starts with `"VkPhysicalDevice"` and
`"Features"` occurs later, reachable without crossing a newline.  Passing
`None` (a missing type name) raises `TypeError` inside `re.match`. -/
def is_features_struct : Option String → Except String Bool
  | none => Except.error "TypeError: expected string or bytes-like object"
  | some s =>
    Except.ok ("VkPhysicalDevice".data.isPrefixOf s.data
      && matchDotStarSeq "Features".data (s.data.drop "VkPhysicalDevice".length))

/-- `ExtensionRegistry.is_properties_struct(self, struct)`:
`re.match(r"VkPhysicalDevice.*Properties.*", struct) is not None`. -/
def is_properties_struct : Option String → Except String Bool
  | none => Except.error "TypeError: expected string or bytes-like object"
  | some s =>
    Except.ok ("VkPhysicalDevice".data.isPrefixOf s.data
      && matchDotStarSeq "Properties".data (s.data.drop "VkPhysicalDevice".length))

/-- The `require/command` loop: a command contributes its name iff
`cmd.get("name")` is truthy (present and non-empty). -/
def entryCommands (cmds : List CommandElem) : List String :=
  cmds.filterMap (fun c =>
    match c.name with
    | some s => if s = "" then none else some s
    | none => none)

/-- The `require/enum` loop: an enum contributes its (possibly missing) name
iff its "extends" attribute is falsy (missing or empty). -/
def entryConstants (enums : List EnumElem) : List (Option String) :=
  (enums.filter (fun en => !(pyTruthyOpt en.extendsAttr))).map EnumElem.name

/-- The `require/type` loop: walk the types in document order, recording the
last name matching the features pattern and, failing that (`elif`), the last
name matching the properties pattern; a missing type name raises `TypeError`
through `is_features_struct`. -/
def structScan (acc : Option String × Option String) :
    List TypeElem → Except String (Option String × Option String)
  | [] => Except.ok acc
  | ty :: rest =>
    match is_features_struct ty.name with
    | Except.error e => Except.error e
    | Except.ok true => structScan (ty.name, acc.2) rest
    | Except.ok false =>
      match is_properties_struct ty.name with
      | Except.error e => Except.error e
      | Except.ok true => structScan (acc.1, ty.name) rest
      | Except.ok false => structScan acc rest

/-- The body of the construction loop for one (non-disabled) extension
element: parse `promotedto` (may raise `ValueError`), collect commands and
constants, then scan the required types (may raise `TypeError`). -/
def buildEntry (ext : ExtensionElem) : Except String ExtensionRegistryEntry :=
  match parse_promotedto ext.promotedto with
  | Except.error e => Except.error e
  | Except.ok promoted =>
    match structScan (none, none) ext.types with
    | Except.error e => Except.error e
    | Except.ok (fs, ps) =>
      Except.ok { ext_type := ext.ext_type
                , promoted_in := promoted
                , commands := entryCommands ext.commands
                , constants := entryConstants ext.enums
                , features_struct := fs
                , properties_struct := ps }

/-- `ExtensionRegistry.__init__` loop over `extensions/extension`: elements
with `supported="disabled"` are skipped (`continue`); every other element's
entry is stored into the shared class-level dictionary under the element's
name. -/
def registryConstructList (state : RegState) :
    List ExtensionElem → Except String RegState
  | [] => Except.ok state
  | ext :: rest =>
    if ext.supported = some "disabled" then
      registryConstructList state rest
    else
      match buildEntry ext with
      | Except.error e => Except.error e
      | Except.ok entry => registryConstructList (dictInsert state ext.name entry) rest

/-- `ExtensionRegistry.__init__(self, vkxml_path)` given the parsed document:
starts from the current contents of the shared class-level dictionary and
returns its contents afterwards. -/
def registryConstruct (state : RegState) (vkxml : VkXml) : Except String RegState :=
  registryConstructList state vkxml.extensions

/-- `ExtensionRegistry.in_registry(self, ext_name)`:
`ext_name in self.registry`, against the shared dictionary state. -/
def in_registry (state : RegState) (ext_name : String) : Bool :=
  (dictLookup state ext_name).isSome

/-- `ExtensionRegistry.get_registry_entry(self, ext_name)`: the entry when
registered, and Python's implicit `None` otherwise. -/
def get_registry_entry (state : RegState) (ext_name : String) :
    Option ExtensionRegistryEntry :=
  if in_registry state ext_name then dictLookup state ext_name else none

/-- A concrete `Extension` whose name has no underscore at all (it violates
the two-leading-token naming convention). -/
def extFoo : Extension :=
  ⟨"foo", "", false, false, false, false, none, false, none, none⟩

/-- The `VK_EXT_robustness2` extension descriptor used in the source's own
examples. -/
def extRb2 : Extension :=
  ⟨"VK_EXT_robustness2", "rb2", false, false, false, false, none, false, none, none⟩

/-- A descriptor for the spec's example name `NS_VENDOR_foo_bar`. -/
def extFooBar : Extension :=
  ⟨"NS_VENDOR_foo_bar", "", false, false, false, false, none, false, none, none⟩

/-- Claim C2: `parse_promotedto` maps `"VK_VERSION_1_2"` to `(1, 2)`,
a non-matching string to absent and `None` to absent — all as claimed — but
it is NOT raise-free: on `"VK_VERSION_TO_NOWHERE"` (prefix matches, final
tokens non-numeric) `int()` raises `ValueError`, contradicting both the
claim and the function's own doc comment ("For any erroneous inputs, None
is returned"); moreover `"VK_VERSION_1_2_3"` yields `(2, 3)` instead of the
claimed absent. -/
theorem C2_parse_promotedto_eval :
    parse_promotedto (some "VK_VERSION_1_2") = Except.ok (some (1, 2)) ∧
    parse_promotedto (some "NS_OTHER_EXT") = Except.ok none ∧
    parse_promotedto none = Except.ok none ∧
    (parse_promotedto (some "VK_VERSION_TO_NOWHERE")).raised = true ∧
    parse_promotedto (some "VK_VERSION_1_2_3") = Except.ok (some (2, 3)) := by
  exact ⟨by decide, by decide, rfl, by decide, by decide⟩

/-- Claim C3 counterexample: the claim says NO name input makes a derivation
function raise, but for the constructible extension named `"foo"` (no
underscore) `vendor` — and through it `stype` and `physical_device_struct` —
raises `IndexError` (`none` in the embedding), since `"foo".split('_')` has
no element at index 1. -/
theorem C3_vendor_raises_cex :
    Extension.init "foo" "" false false false false none false none none =
      Except.ok extFoo ∧
    extFoo.vendor = none ∧
    extFoo.stype "FEATURES" = none ∧
    extFoo.physical_device_struct "Features" = none := by
  exact ⟨by decide, by decide, by decide, by decide⟩

/-- Claim C3 (amended): `pure_name`, `name_with_vendor`,
`name_in_camel_case`, `extension_name`, `extension_name_literal` and `field`
are total string functions of any name (they never raise), but `vendor` —
and therefore `stype` and `physical_device_struct`, which call it — returns
a (possibly meaningless) string exactly when the name splits into at least
two underscore-delimited tokens, and raises `IndexError` otherwise. -/
theorem C3_vendor_domain (e : Extension) (sk : String) :
    ((e.vendor).isSome ↔ 2 ≤ (pySplitUnderscore e.name).length) ∧
    ((e.stype sk).isSome ↔ 2 ≤ (pySplitUnderscore e.name).length) ∧
    ((e.physical_device_struct sk).isSome ↔ 2 ≤ (pySplitUnderscore e.name).length) := by
  have h : (e.vendor).isSome ↔ 2 ≤ (pySplitUnderscore e.name).length := by
    unfold Extension.vendor
    rw [Option.isSome_iff_exists]
    constructor
    · rintro ⟨v, hv⟩
      exact (List.getElem?_eq_some.mp hv).1
    · intro hl
      exact ⟨_, List.getElem?_eq_some.mpr ⟨hl, rfl⟩⟩
  refine ⟨h, ?_, ?_⟩
  · unfold Extension.stype
    rw [isSome_optMap]
    exact h
  · unfold Extension.physical_device_struct
    rw [isSome_optMap]
    exact h

/-- Claim C4: constructing an `Extension` with `properties=True` or
`features=True` and no alias (the empty-string default) raises a
`RuntimeError` at construction time, while the same construction with a
non-empty alias succeeds. -/
theorem C4_alias_required (name alias2 : String) (req nonstd props feats grd : Bool)
    (conds fns : Option (List String)) (cs : Option Version)
    (hflag : props = true ∨ feats = true) (halias : alias2 ≠ "") :
    (Extension.init name "" req nonstd props feats conds grd cs fns).raised = true ∧
    (Extension.init name alias2 req nonstd props feats conds grd cs fns).raised = false := by
  constructor
  · unfold Extension.init
    rw [if_pos ⟨rfl, hflag⟩]
    rfl
  · unfold Extension.init
    rw [if_neg (fun h => halias h.1)]
    rfl

/-- Witness for C4 at a concrete input. -/
theorem C4_alias_required_witness :
    (Extension.init "VK_EXT_robustness2" "" false false true true none false
        none none).raised = true ∧
    (Extension.init "VK_EXT_robustness2" "rb2" false false true true none false
        none none).raised = false :=
  C4_alias_required "VK_EXT_robustness2" "rb2" false false true true false
    none none none (Or.inl rfl) (by decide)

/-- Claim C6: whenever the name has a vendor tag `v` (so `vendor` does not
raise), `physical_device_struct(struct_kind)` is the fixed
`"VkPhysicalDevice"` prefix, then the camel-cased name, then the
`struct_kind` token — omitted when the camel-cased name already ends with
it — then the vendor tag. -/
theorem C6_physical_device_struct_eq (e : Extension) (sk v : String)
    (hv : e.vendor = some v) :
    e.physical_device_struct sk =
      some (if strEndsWith e.name_in_camel_case sk
            then "VkPhysicalDevice" ++ e.name_in_camel_case ++ v
            else "VkPhysicalDevice" ++ e.name_in_camel_case ++ sk ++ v) := by
  unfold Extension.physical_device_struct
  rw [hv, Option.map_some']
  cases hend : strEndsWith e.name_in_camel_case sk
  · simp [hend]
  · simp [hend, String.append_empty]

/-- Witness for C6 at the source's own example `VK_EXT_robustness2` with
struct kind `"Features"`. -/
theorem C6_physical_device_struct_witness :
    extRb2.physical_device_struct "Features" =
      some (if strEndsWith extRb2.name_in_camel_case "Features"
            then "VkPhysicalDevice" ++ extRb2.name_in_camel_case ++ "EXT"
            else "VkPhysicalDevice" ++ extRb2.name_in_camel_case ++ "Features" ++ "EXT") ∧
    extRb2.physical_device_struct "Features" =
      some "VkPhysicalDeviceRobustness2FeaturesEXT" :=
  ⟨C6_physical_device_struct_eq extRb2 "Features" "EXT" (by decide), by decide⟩

/-- Claim C7: when the name splits as `t1 :: t2 :: rest`, `pure_name` is
`rest` rejoined with underscores and `name_in_camel_case` is `rest` with
each token title-cased, concatenated with no separator. -/
theorem C7_pure_name_camel (e : Extension) (t1 t2 : String) (rest : List String)
    (h : pySplitUnderscore e.name = t1 :: t2 :: rest) :
    e.pure_name = "_".intercalate rest ∧
    e.name_in_camel_case = String.join (rest.map pyTitle) := by
  unfold Extension.pure_name Extension.name_in_camel_case
  rw [h]
  exact ⟨rfl, rfl⟩

/-- Witness for C7 at the spec's example names: `"NS_VENDOR_foo_bar"` gives
pure name `"foo_bar"` and `"VK_EXT_robustness2"` gives camel case
`"Robustness2"`. -/
theorem C7_pure_name_camel_witness :
    extFooBar.pure_name = "foo_bar" ∧
    extRb2.name_in_camel_case = "Robustness2" := by
  have h1 := C7_pure_name_camel extFooBar "NS" "VENDOR" ["foo", "bar"] (by decide)
  have h2 := C7_pure_name_camel extRb2 "VK" "EXT" ["robustness2"] (by decide)
  exact ⟨h1.1.trans (by decide), h2.2.trans (by decide)⟩

/-- Claim C9: a `Version` constructed without an explicit struct version has
`struct_version` equal to the first two device-version components, and
`struct()` concatenates the struct-version components with no separator —
both for the defaulted and for the overridden struct version. -/
theorem C9_version_struct (ma mi pa a b : Nat) :
    (Version.init (ma, mi, pa) none).struct_version = (ma, mi) ∧
    (Version.init (ma, mi, pa) none).struct = toString ma ++ toString mi ∧
    (Version.init (ma, mi, pa) (some (a, b))).struct = toString a ++ toString b :=
  ⟨rfl, rfl, rfl⟩

/-- `find?` for key `n` is unaffected by the overwrite `map` of `dictInsert`
for a different key `k`. -/
theorem find?_overwrite_ne (k : String) (v : ExtensionRegistryEntry) (n : String)
    (hne : n ≠ k) (d : RegState) :
    List.find? (fun p => p.1 == n) (d.map (fun p => if p.1 == k then (k, v) else p)) =
      List.find? (fun p => p.1 == n) d := by
  induction d with
  | nil => rfl
  | cons p rest ih =>
    simp only [List.map_cons]
    by_cases hpk : p.1 = k
    · rw [if_pos (by simp [hpk])]
      rw [List.find?_cons_of_neg _ (by simp [beq_iff_eq]; exact Ne.symm hne),
          List.find?_cons_of_neg _ (by simp [beq_iff_eq, hpk]; exact Ne.symm hne)]
      exact ih
    · rw [if_neg (by simpa [beq_iff_eq] using hpk)]
      by_cases hpn : p.1 = n
      · rw [List.find?_cons_of_pos _ (by simp [beq_iff_eq, hpn]),
            List.find?_cons_of_pos _ (by simp [beq_iff_eq, hpn])]
      · rw [List.find?_cons_of_neg _ (by simpa [beq_iff_eq] using hpn),
            List.find?_cons_of_neg _ (by simpa [beq_iff_eq] using hpn)]
        exact ih

/-- `find?` for the overwritten key returns the freshly written pair when the
key occurs in the dictionary. -/
theorem find?_overwrite_hit (k : String) (v : ExtensionRegistryEntry) (d : RegState)
    (hany : d.any (fun p => p.1 == k) = true) :
    List.find? (fun p => p.1 == k) (d.map (fun p => if p.1 == k then (k, v) else p)) =
      some (k, v) := by
  induction d with
  | nil => simp at hany
  | cons p rest ih =>
    simp only [List.map_cons]
    by_cases hpk : p.1 = k
    · rw [if_pos (by simp [hpk])]
      exact List.find?_cons_of_pos _ (by simp)
    · rw [if_neg (by simpa [beq_iff_eq] using hpk),
          List.find?_cons_of_neg _ (by simpa [beq_iff_eq] using hpk)]
      apply ih
      simpa [hpk] using hany

/-- Characterisation of `dictLookup` after `dictInsert`: the inserted key now
maps to the inserted value and every other key is untouched. -/
theorem dictLookup_dictInsert (d : RegState) (k : String) (v : ExtensionRegistryEntry)
    (n : String) :
    dictLookup (dictInsert d k v) n = if n = k then some v else dictLookup d n := by
  unfold dictInsert dictLookup
  by_cases hany : d.any (fun p => p.1 == k) = true
  · rw [if_pos hany]
    by_cases hnk : n = k
    · subst hnk
      rw [find?_overwrite_hit n v d hany, if_pos rfl]
      rfl
    · rw [find?_overwrite_ne k v n hnk d, if_neg hnk]
  · rw [if_neg hany, List.find?_append]
    by_cases hnk : n = k
    · subst hnk
      have hnone : List.find? (fun p => p.1 == n) d = none := by
        rw [List.find?_eq_none]
        intro x hx hxn
        exact hany (List.any_eq_true.mpr ⟨x, hx, hxn⟩)
      rw [hnone, if_pos rfl, List.find?_cons_of_pos _ (by simp)]
      rfl
    · have h2 : List.find? (fun p => p.1 == n) [(k, v)] = none := by
        rw [List.find?_eq_none]
        intro x hx
        simp only [List.mem_singleton] at hx
        subst hx
        simpa [beq_iff_eq] using Ne.symm hnk
      rw [h2, if_neg hnk, Option.or_none]

/-- Inserting never removes a registered name. -/
theorem in_registry_dictInsert_mono (s : RegState) (k : String)
    (v : ExtensionRegistryEntry) (n : String) (h : in_registry s n = true) :
    in_registry (dictInsert s k v) n = true := by
  unfold in_registry at h ⊢
  rw [dictLookup_dictInsert]
  by_cases hnk : n = k
  · rw [if_pos hnk]
    rfl
  · rw [if_neg hnk]
    exact h

/-- Inserting under a different key does not change a name's membership. -/
theorem in_registry_dictInsert_of_ne (s : RegState) (k : String)
    (v : ExtensionRegistryEntry) (n : String) (hnk : n ≠ k) :
    in_registry (dictInsert s k v) n = in_registry s n := by
  unfold in_registry
  rw [dictLookup_dictInsert, if_neg hnk]

/-- The construction loop only inserts: a name registered in the shared
dictionary before the loop is still registered afterwards. -/
theorem registryConstructList_mono (n : String) :
    ∀ (l : List ExtensionElem) (s s2 : RegState),
      registryConstructList s l = Except.ok s2 →
      in_registry s n = true → in_registry s2 n = true
  | [], s, s2, h, hn => by
      unfold registryConstructList at h
      exact (Except.ok.inj h) ▸ hn
  | ext :: rest, s, s2, h, hn => by
      unfold registryConstructList at h
      by_cases hd : ext.supported = some "disabled"
      · rw [if_pos hd] at h
        exact registryConstructList_mono n rest s s2 h hn
      · rw [if_neg hd] at h
        cases hbe : buildEntry ext with
        | error e =>
            rw [hbe] at h
            cases h
        | ok entry =>
            rw [hbe] at h
            exact registryConstructList_mono n rest _ s2 h
              (in_registry_dictInsert_mono s ext.name entry n hn)

/-- The construction loop registers no name whose every occurrence in the
document is disabled. -/
theorem registryConstructList_no_new (n : String) :
    ∀ (l : List ExtensionElem) (s s2 : RegState),
      registryConstructList s l = Except.ok s2 →
      (∀ ext ∈ l, ext.name = n → ext.supported = some "disabled") →
      in_registry s n = false → in_registry s2 n = false
  | [], s, s2, h, _, hn => by
      unfold registryConstructList at h
      exact (Except.ok.inj h) ▸ hn
  | ext :: rest, s, s2, h, hall, hn => by
      unfold registryConstructList at h
      by_cases hd : ext.supported = some "disabled"
      · rw [if_pos hd] at h
        exact registryConstructList_no_new n rest s s2 h
          (fun e he => hall e (List.mem_cons_of_mem ext he)) hn
      · rw [if_neg hd] at h
        cases hbe : buildEntry ext with
        | error e =>
            rw [hbe] at h
            cases h
        | ok entry =>
            rw [hbe] at h
            have hne : n ≠ ext.name := by
              intro heq
              exact hd (hall ext (List.mem_cons_self ext rest) heq.symm)
            refine registryConstructList_no_new n rest _ s2 h
              (fun e he => hall e (List.mem_cons_of_mem ext he)) ?_
            rw [in_registry_dictInsert_of_ne s ext.name entry n hne]
            exact hn

/-- The empty document (no extension elements). -/
def docEmpty : VkXml := ⟨[]⟩

/-- A one-element document registering the enabled extension `VK_KHR_x`. -/
def docX : VkXml := ⟨[⟨"VK_KHR_x", "device", none, none, [], [], []⟩]⟩

/-- The entry `docX`'s element produces. -/
def entryX : ExtensionRegistryEntry := ⟨"device", none, [], [], none, none⟩

/-- Claim C1 counterexample: `ExtensionRegistry.registry` is a class-level
dictionary that `__init__` mutates without rebinding, so every instance
shares it.  R1, constructed from the empty document, leaves the shared
dictionary empty and `in_registry` on R1 answers `false` for `"VK_KHR_x"`;
constructing R2 from `docX` then inserts `"VK_KHR_x"` into the very
dictionary R1 reads, after which `in_registry` on R1 answers `true` and
`get_registry_entry` on R1 returns an entry — R1's mapping did not stay
unchanged. -/
theorem C1_shared_registry_cex :
    registryConstruct [] docEmpty = Except.ok [] ∧
    in_registry [] "VK_KHR_x" = false ∧
    get_registry_entry [] "VK_KHR_x" = none ∧
    registryConstruct [] docX = Except.ok [("VK_KHR_x", entryX)] ∧
    in_registry [("VK_KHR_x", entryX)] "VK_KHR_x" = true ∧
    get_registry_entry [("VK_KHR_x", entryX)] "VK_KHR_x" = some entryX := by
  exact ⟨rfl, rfl, rfl, by decide, by decide, by decide⟩

/-- Claim C1 (amended): all `ExtensionRegistry` instances share the one
class-level mapping, so constructing a second registry can change what an
already-constructed one reads; the change is purely additive, though:
construction only inserts or overwrites entries, so every name registered
in the shared mapping before a construction is still registered after it. -/
theorem C1_registry_grows (s s2 : RegState) (doc : VkXml) (n : String)
    (h : registryConstruct s doc = Except.ok s2)
    (hn : in_registry s n = true) :
    in_registry s2 n = true :=
  registryConstructList_mono n doc.extensions s s2 h hn

/-- Witness for the amended C1: a pre-registered name survives a second
construction. -/
theorem C1_registry_grows_witness :
    in_registry [("VK_A", entryX), ("VK_KHR_x", entryX)] "VK_A" = true :=
  C1_registry_grows [("VK_A", entryX)] [("VK_A", entryX), ("VK_KHR_x", entryX)]
    docX "VK_A" (by decide) (by decide)

/-- A document in which an enabled element and a disabled element carry the
same name `"VK_X"`. -/
def docDup : VkXml :=
  ⟨[⟨"VK_X", "device", none, none, [], [], []⟩,
    ⟨"VK_X", "device", some "disabled", none, [], [], []⟩]⟩

/-- Claim C8 counterexample: `docDup` contains an extension element marked
`supported="disabled"` whose name `"VK_X"` nevertheless IS in the registry
after construction (an enabled element shares the name), so `in_registry`
answers `true` and `get_registry_entry` is not absent — refuting the claim
as universally stated. -/
theorem C8_disabled_in_registry_cex :
    docDup.extensions[1]? =
      some ⟨"VK_X", "device", some "disabled", none, [], [], []⟩ ∧
    registryConstruct [] docDup = Except.ok [("VK_X", entryX)] ∧
    in_registry [("VK_X", entryX)] "VK_X" = true ∧
    get_registry_entry [("VK_X", entryX)] "VK_X" = some entryX := by
  exact ⟨by decide, by decide, by decide, by decide⟩

/-- Claim C8 (amended): an element marked `supported="disabled"` is skipped
and contributes nothing, so if every element of the document carrying a
given name is disabled and the name was not already in the shared mapping,
then after construction `in_registry` answers `false` for it and
`get_registry_entry` returns absent (an ordinary outcome, not an error). -/
theorem C8_disabled_skipped (s s2 : RegState) (doc : VkXml) (n : String)
    (h : registryConstruct s doc = Except.ok s2)
    (hdis : ∀ ext ∈ doc.extensions, ext.name = n → ext.supported = some "disabled")
    (hpre : in_registry s n = false) :
    in_registry s2 n = false ∧ get_registry_entry s2 n = none := by
  have h1 := registryConstructList_no_new n doc.extensions s s2 h hdis hpre
  refine ⟨h1, ?_⟩
  unfold get_registry_entry
  simp [h1]

/-- A document holding one disabled element only. -/
def docOnlyDisabled : VkXml :=
  ⟨[⟨"VK_D", "device", some "disabled", none, [], [], []⟩]⟩

/-- Witness for the amended C8 at a concrete disabled-only document. -/
theorem C8_disabled_skipped_witness :
    in_registry [] "VK_D" = false ∧ get_registry_entry [] "VK_D" = none :=
  C8_disabled_skipped [] [] docOnlyDisabled "VK_D" (by decide) (by decide) (by decide)

/-- Membership in the commands list built by the `require/command` loop:
exactly the non-empty names that occur on some command element. -/
theorem mem_entryCommands (cmds : List CommandElem) (s : String) :
    s ∈ entryCommands cmds ↔ s ≠ "" ∧ ∃ c ∈ cmds, c.name = some s := by
  unfold entryCommands
  rw [List.mem_filterMap]
  constructor
  · rintro ⟨c, hc, hcs⟩
    cases hcn : c.name with
    | none =>
        rw [hcn] at hcs
        cases hcs
    | some t =>
        rw [hcn] at hcs
        dsimp only at hcs
        by_cases ht : t = ""
        · rw [if_pos ht] at hcs
          cases hcs
        · rw [if_neg ht] at hcs
          obtain rfl := Option.some.inj hcs
          exact ⟨ht, c, hc, hcn⟩
  · rintro ⟨hne, c, hc, hcn⟩
    refine ⟨c, hc, ?_⟩
    rw [hcn]
    exact if_neg hne

/-- Every enum element with a falsy "extends" attribute contributes its raw
(possibly missing) name to the constants list. -/
theorem mem_entryConstants (enums : List EnumElem) (en : EnumElem)
    (hen : en ∈ enums) (hext : pyTruthyOpt en.extendsAttr = false) :
    en.name ∈ entryConstants enums := by
  unfold entryConstants
  exact List.mem_map.mpr ⟨en, List.mem_filter.mpr ⟨hen, by simp [hext]⟩, rfl⟩

/-- Claim C10: when construction of an entry succeeds, the commands list
holds exactly the present, non-empty command names (a command element with
a missing or empty name attribute is omitted), whereas every enum element
whose "extends" attribute is falsy contributes its name attribute verbatim
to the constants list, even when that attribute is missing — so the
constants list may contain an absent entry while the commands list never
does. -/
theorem C10_commands_constants (ext : ExtensionElem) (entry : ExtensionRegistryEntry)
    (h : buildEntry ext = Except.ok entry) :
    (∀ s : String, s ∈ entry.commands ↔
      (s ≠ "" ∧ ∃ c ∈ ext.commands, c.name = some s)) ∧
    (∀ en ∈ ext.enums, pyTruthyOpt en.extendsAttr = false →
      en.name ∈ entry.constants) := by
  unfold buildEntry at h
  cases hp : parse_promotedto ext.promotedto with
  | error e =>
      rw [hp] at h
      cases h
  | ok promoted =>
      rw [hp] at h
      cases hs : structScan (none, none) ext.types with
      | error e =>
          rw [hs] at h
          cases h
      | ok fsps =>
          obtain ⟨fs, ps⟩ := fsps
          rw [hs] at h
          obtain rfl := Except.ok.inj h
          exact ⟨fun s => mem_entryCommands ext.commands s,
                 fun en hen hext => mem_entryConstants ext.enums en hen hext⟩

/-- An extension element with a nameless command, an empty-named command, a
named command, and a single nameless, non-extending enum. -/
def ext10 : ExtensionElem :=
  ⟨"VK_X", "device", none, none,
   [⟨none⟩, ⟨some ""⟩, ⟨some "vkCmdFoo"⟩], [⟨none, none⟩], []⟩

/-- The entry `ext10` produces: `commands` has only the real name, while
`constants` holds one absent entry. -/
def entry10 : ExtensionRegistryEntry :=
  ⟨"device", none, ["vkCmdFoo"], [none], none, none⟩

/-- Witness for C10: on `ext10` the constants list contains an absent entry
and the commands list contains no empty entry. -/
theorem C10_commands_constants_witness :
    (none : Option String) ∈ entry10.constants ∧ "" ∉ entry10.commands := by
  have h := C10_commands_constants ext10 entry10 (by decide)
  constructor
  · exact h.2 ⟨none, none⟩ (by decide) rfl
  · intro hmem
    exact ((h.1 "").mp hmem).1 rfl

/-- Claim C5: constructing the registry from a document holding one enabled
extension element with two required commands (present, non-empty names), one
required enum without an "extends" attribute, one required enum with a
(non-empty) "extends" attribute, and one required type whose name matches
the features-struct pattern, yields exactly one entry: its commands are the
two command names in document order, its constants hold only the
non-extending enum's name, its `features_struct` is the type's name and its
`properties_struct` is absent. -/
theorem C5_registry_entry_shape
    (extName extType : String) (sup promoted : Option String)
    (c1 c2 n1 n2 tyName ev : String) (pv : Option (Int × Int))
    (hsup : sup ≠ some "disabled")
    (hc1 : c1 ≠ "") (hc2 : c2 ≠ "") (hev : ev ≠ "")
    (hp : parse_promotedto promoted = Except.ok pv)
    (hty : is_features_struct (some tyName) = Except.ok true) :
    registryConstruct []
      ⟨[⟨extName, extType, sup, promoted,
         [⟨some c1⟩, ⟨some c2⟩],
         [⟨some n1, none⟩, ⟨some n2, some ev⟩],
         [⟨some tyName⟩]⟩]⟩ =
      Except.ok [(extName,
        ⟨extType, pv, [c1, c2], [some n1], some tyName, none⟩)] := by
  have hscan : structScan (none, none) [(⟨some tyName⟩ : TypeElem)] =
      Except.ok (some tyName, none) := by
    unfold structScan
    rw [hty]
    rfl
  have hcm : entryCommands [⟨some c1⟩, ⟨some c2⟩] = [c1, c2] := by
    unfold entryCommands
    simp [List.filterMap_cons, hc1, hc2]
  have hcn : entryConstants [⟨some n1, none⟩, ⟨some n2, some ev⟩] = [some n1] := by
    unfold entryConstants
    simp [pyTruthyOpt, hev]
  have hbe : buildEntry ⟨extName, extType, sup, promoted,
      [⟨some c1⟩, ⟨some c2⟩], [⟨some n1, none⟩, ⟨some n2, some ev⟩],
      [⟨some tyName⟩]⟩ =
      Except.ok ⟨extType, pv, [c1, c2], [some n1], some tyName, none⟩ := by
    unfold buildEntry
    rw [hp]
    dsimp only
    rw [hscan]
    dsimp only
    rw [hcm, hcn]
  unfold registryConstruct registryConstructList
  rw [if_neg hsup, hbe]
  rfl

/-- Witness for C5 on a concrete timeline-semaphore-style element. -/
theorem C5_registry_entry_shape_witness :
    registryConstruct []
      ⟨[⟨"VK_KHR_timeline_semaphore", "device", none, some "VK_VERSION_1_2",
         [⟨some "vkWaitSemaphoresKHR"⟩, ⟨some "vkSignalSemaphoreKHR"⟩],
         [⟨some "VK_KHR_TIMELINE_SEMAPHORE_EXTENSION_NAME", none⟩,
          ⟨some "VK_STRUCTURE_TYPE_PHYSICAL_DEVICE_TIMELINE_SEMAPHORE_FEATURES_KHR",
           some "VkStructureType"⟩],
         [⟨some "VkPhysicalDeviceTimelineSemaphoreFeaturesKHR"⟩]⟩]⟩ =
      Except.ok [("VK_KHR_timeline_semaphore",
        ⟨"device", some (1, 2),
         ["vkWaitSemaphoresKHR", "vkSignalSemaphoreKHR"],
         [some "VK_KHR_TIMELINE_SEMAPHORE_EXTENSION_NAME"],
         some "VkPhysicalDeviceTimelineSemaphoreFeaturesKHR", none⟩)] :=
  C5_registry_entry_shape "VK_KHR_timeline_semaphore" "device" none
    (some "VK_VERSION_1_2") "vkWaitSemaphoresKHR" "vkSignalSemaphoreKHR"
    "VK_KHR_TIMELINE_SEMAPHORE_EXTENSION_NAME"
    "VK_STRUCTURE_TYPE_PHYSICAL_DEVICE_TIMELINE_SEMAPHORE_FEATURES_KHR"
    "VkPhysicalDeviceTimelineSemaphoreFeaturesKHR" "VkStructureType"
    (some (1, 2)) (by decide) (by decide) (by decide) (by decide)
    (by decide) (by decide)
